import Mathlib

/-
Verification of the OpenCode server process supervisor
(source: src/opencode server manager module - getOpenPort, waitForServer,
startServer, getServer, stopServer and the subprocess exit listener).

The supervisor is modelled as pure state-passing code.  External effects
(directory access check, socket bind, subprocess spawn, readiness probes,
process kill, singleton assignment, log lines) are recorded in an explicit
event trace, and the outcomes the operating system would deliver are inputs
packaged in a StartEnv record.  Numbers produced by the JavaScript Number
coercion are modelled as NaN, one of the two infinities, or an exact decimal
(an integer mantissa with a power of ten denominator); the string grammar
covers decimal literals with optional sign, fraction and exponent, hex,
binary and octal integer literals, Infinity, and the full whitespace set,
with overflow and underflow to the signed infinity and to zero at the
float64 boundaries.  Finite in-range values are kept exact instead of being
rounded to the nearest float64; that rounding never changes the NaN-ness,
zeroness or sign of a value, which is all the supervisor branches on.
-/

/-- Exact decimal number: the value is mantissa divided by ten to the
exp10. -/
structure JSDecimal where
  mantissa : Int
  exp10 : Nat
  deriving DecidableEq

/-- Embedding of a machine natural (an OS-assigned port) as a decimal. -/
def JSDecimal.ofNat (n : Nat) : JSDecimal :=
  { mantissa := (n : Int), exp10 := 0 }

/-- Numeric zero test: the value is zero exactly when the mantissa is (this
covers -0 too). -/
def JSDecimal.isZero (d : JSDecimal) : Bool :=
  d.mantissa = 0

/-- A JavaScript number value other than NaN: an exact finite decimal or one
of the two infinities. -/
inductive JSNumber where
  | finite (d : JSDecimal)
  | posInf
  | negInf
  deriving DecidableEq

/-- Embedding of a machine natural (an OS-assigned port) as a number. -/
def JSNumber.ofNat (n : Nat) : JSNumber :=
  JSNumber.finite (JSDecimal.ofNat n)

/-- Falsiness test JavaScript applies to a number: only zero (and -0) is
falsy; the infinities are truthy. -/
def JSNumber.isZero : JSNumber → Bool
  | JSNumber.finite d => d.isZero
  | _ => false

/-- Result of the JavaScript Number coercion: NaN or a number value. -/
inductive JSNum where
  | nan
  | num (v : JSNumber)
  deriving DecidableEq

/-- The WhiteSpace and LineTerminator characters the JavaScript Number
coercion trims: tab, line feed, vertical tab, form feed, carriage return,
space, no-break space, the Unicode space separators, the line and paragraph
separators and the byte order mark. -/
def jsWhitespace (c : Char) : Bool :=
  c.toNat = 9 || c.toNat = 10 || c.toNat = 11 || c.toNat = 12 || c.toNat = 13 ||
  c.toNat = 32 || c.toNat = 160 || c.toNat = 5760 ||
  (8192 ≤ c.toNat && c.toNat ≤ 8202) ||
  c.toNat = 8232 || c.toNat = 8233 || c.toNat = 8239 || c.toNat = 8287 ||
  c.toNat = 12288 || c.toNat = 65279

/-- Value of a list of decimal digit characters. -/
def digitsToNat (l : List Char) : Nat :=
  l.foldl (fun a c => a * 10 + (c.toNat - 48)) 0

/-- Value of one digit character up to base sixteen, letters in either
case. -/
def digitVal (c : Char) : Option Nat :=
  if '0' ≤ c && c ≤ '9' then some (c.toNat - 48)
  else if 'a' ≤ c && c ≤ 'f' then some (c.toNat - 87)
  else if 'A' ≤ c && c ≤ 'F' then some (c.toNat - 55)
  else none

/-- Value of a nonempty digit list in a base, defined when every character
is a digit of that base. -/
def baseDigitsVal (base : Nat) (l : List Char) : Option Nat :=
  if l = [] then none
  else
    l.foldl (fun acc c =>
      match acc, digitVal c with
      | some a, some v => if v < base then some (a * base + v) else none
      | _, _ => none) (some 0)

/-- NonDecimalIntegerLiteral of the Number grammar: a 0x, 0b or 0o prefix in
either case followed by digits of that base, with no sign, point or
exponent. -/
def parseNonDecimal : List Char → Option Nat
  | '0' :: p :: rest =>
      if p = 'x' || p = 'X' then baseDigitsVal 16 rest
      else if p = 'b' || p = 'B' then baseDigitsVal 2 rest
      else if p = 'o' || p = 'O' then baseDigitsVal 8 rest
      else none
  | _ => none

/-- ExponentPart at the end of a decimal literal: an empty rest means
exponent zero, otherwise e or E with optionally signed digits consuming the
whole rest. -/
def parseExponentTail : List Char → Option Int
  | [] => some 0
  | c :: r =>
      if c = 'e' || c = 'E' then
        match r with
        | '+' :: ds =>
            if !ds.isEmpty && ds.all Char.isDigit then some ((digitsToNat ds : Int))
            else none
        | '-' :: ds =>
            if !ds.isEmpty && ds.all Char.isDigit then some (-(digitsToNat ds : Int))
            else none
        | ds =>
            if !ds.isEmpty && ds.all Char.isDigit then some ((digitsToNat ds : Int))
            else none
      else none

/-- Exact decimal with integer part ip and fractional digits worth fp over
f places, scaled by ten to the e. -/
def mkDecimal (ip fp f : Nat) (e : Int) : JSDecimal :=
  let m : Int := ((ip * 10 ^ f + fp : Nat) : Int)
  let k : Int := e - (f : Int)
  if 0 ≤ k then { mantissa := m * 10 ^ k.toNat, exp10 := 0 }
  else { mantissa := m, exp10 := (-k).toNat }

/-- StrUnsignedDecimalLiteral of the Number grammar apart from Infinity:
digits with an optional point, optional fractional digits and an optional
exponent, or a point followed by digits and an optional exponent. -/
def parseUnsignedDecimal (l : List Char) : Option JSDecimal :=
  let ip := l.takeWhile Char.isDigit
  let r1 := l.dropWhile Char.isDigit
  match r1 with
  | '.' :: r2 =>
      let fp := r2.takeWhile Char.isDigit
      let r3 := r2.dropWhile Char.isDigit
      if ip.isEmpty && fp.isEmpty then none
      else
        match parseExponentTail r3 with
        | some e => some (mkDecimal (digitsToNat ip) (digitsToNat fp) fp.length e)
        | none => none
  | r3 =>
      if ip.isEmpty then none
      else
        match parseExponentTail r3 with
        | some e => some (mkDecimal (digitsToNat ip) 0 0 e)
        | none => none

/-- Magnitude at which rounding a value to float64 overflows to the signed
infinity: two to the 1024 minus two to the 970, written with nested small
exponents. -/
def doubleOverflowBound : Nat :=
  ((2 : Nat) ^ 256) ^ 4 - ((2 : Nat) ^ 194) ^ 5

/-- Reciprocal of the largest magnitude that rounds to zero, half the
smallest subnormal: two to the 1075. -/
def doubleUnderflowScale : Nat :=
  ((2 : Nat) ^ 215) ^ 5

/-- Fit an exact decimal into the float64 value range the way rounding to
the nearest double would: magnitudes at or beyond the overflow bound become
the signed infinity, nonzero magnitudes at or below half the smallest
subnormal become zero, and everything in range is kept exact. -/
def fitDouble (d : JSDecimal) : JSNumber :=
  if doubleOverflowBound * 10 ^ d.exp10 ≤ d.mantissa.natAbs then
    (if d.mantissa < 0 then JSNumber.negInf else JSNumber.posInf)
  else if d.mantissa ≠ 0 ∧ d.mantissa.natAbs * doubleUnderflowScale ≤ 10 ^ d.exp10 then
    JSNumber.finite { mantissa := 0, exp10 := 0 }
  else JSNumber.finite d

/-- Model of the JavaScript Number coercion on strings: whitespace is
trimmed, the empty string coerces to 0, hex, binary and octal integer
literals take their base value, and otherwise an optional sign applies to
Infinity or to a decimal literal with optional fraction and exponent, fitted
to the float64 range; every other string is NaN. -/
def jsToNumber (s : String) : JSNum :=
  let t := ((s.toList.dropWhile jsWhitespace).reverse.dropWhile jsWhitespace).reverse
  if t = [] then JSNum.num (JSNumber.finite { mantissa := 0, exp10 := 0 })
  else
    match parseNonDecimal t with
    | some v => JSNum.num (fitDouble { mantissa := (v : Int), exp10 := 0 })
    | none =>
        let signed : Int × List Char :=
          match t with
          | '-' :: r => (-1, r)
          | '+' :: r => (1, r)
          | r => (1, r)
        if signed.2 = "Infinity".toList then
          JSNum.num (if signed.1 = -1 then JSNumber.negInf else JSNumber.posInf)
        else
          match parseUnsignedDecimal signed.2 with
          | some d =>
              JSNum.num (fitDouble { mantissa := signed.1 * d.mantissa, exp10 := d.exp10 })
          | none => JSNum.nan

/-- Left padding of a digit string with zeros up to a width. -/
def padZeros (s : String) (width : Nat) : String :=
  String.mk (List.replicate (width - s.length) '0') ++ s

/-- Rendering of a finite number for the command line and the base URL, as
the JavaScript toString of the number (trailing fractional zeros are kept,
which JavaScript would strip; integral values render identically). -/
def JSDecimal.render (d : JSDecimal) : String :=
  if d.exp10 = 0 then toString d.mantissa
  else
    (if d.mantissa < 0 then "-" else "") ++
      toString (d.mantissa.natAbs / 10 ^ d.exp10) ++ "." ++
      padZeros (toString (d.mantissa.natAbs % 10 ^ d.exp10)) d.exp10

/-- Rendering of a number value: the infinities print as JavaScript prints
them. -/
def JSNumber.render : JSNumber → String
  | JSNumber.finite d => d.render
  | JSNumber.posInf => "Infinity"
  | JSNumber.negInf => "-Infinity"

/-- Configuration payload injected into the subprocess environment as the
OPENCODE_CONFIG_CONTENT variable (schema models the dollar-schema key of the
JSON object; the JSON serialization itself is kept structured). -/
structure InjectedConfig where
  schema : String
  lsp : Bool
  formatter : Bool
  permissionEdit : String
  permissionBash : String
  permissionWebfetch : String
  deriving DecidableEq

/-- The exact configuration object built by startServer. -/
def opencodeConfigContent : InjectedConfig :=
  { schema := "https://opencode.ai/config.json"
    lsp := false
    formatter := false
    permissionEdit := "allow"
    permissionBash := "allow"
    permissionWebfetch := "allow" }

/-- Handle on the spawned OS subprocess: its identity and the killed flag of
the Node ChildProcess object. -/
structure ChildProcess where
  pid : Nat
  killed : Bool
  deriving DecidableEq

/-- API client handle: both SDK clients are bound to a base URL with the
request timeout disabled. -/
structure ApiClient where
  baseUrl : String
  timeoutDisabled : Bool
  deriving DecidableEq

/-- The OpenCodeServer record of the source: subprocess handle, the two SDK
clients, the bound port and the working directory. -/
structure OpenCodeServer where
  process : ChildProcess
  client : ApiClient
  clientV2 : ApiClient
  port : JSNumber
  directory : String
  deriving DecidableEq

/-- Process-wide supervisor state: the module-scoped singleton slot plus a
counter supplying fresh subprocess identities. -/
structure SupState where
  server : Option OpenCodeServer
  nextPid : Nat
  deriving DecidableEq

/-- Errors thrown by the supervisor, one constructor per throw site. -/
inductive SupError where
  | directoryError (dir : String)
  | allocationError (msg : String)
  | readinessTimeout (port : JSNumber) (attempts : Nat)
  deriving DecidableEq

/-- Observable effects of a supervisor run, in order of occurrence. -/
inductive Event where
  | dirCheck (dir : String) (ok : Bool)
  | netListenError
  | netBound
  | netRelease
  | spawn (path : String) (args : List String) (cwd : String)
      (cfg : InjectedConfig) (pid : Nat)
  | probe (port : JSNumber) (timeoutMs : Nat) (outcome : Option Nat)
  | sleep (ms : Nat)
  | assignSingleton (pid : Nat)
  | clearSingleton
  | kill (pid : Nat)
  | logInfo (msg : String)
  | logError (msg : String)
  deriving DecidableEq

/-- Outcome the OS delivers to the ephemeral bind performed by getOpenPort:
either the listen attempt errors, or the socket is bound and reading back the
address gives some port (an address object) or nothing usable. -/
inductive BindOutcome where
  | listenRefused
  | bound (addr : Option Nat)
  deriving DecidableEq

deriving instance DecidableEq for Except

/-- Translation of getOpenPort: listen on port 0, read the assigned address
back, close the socket and return the port.  The socket is closed only on the
success path; when the address cannot be introspected the code rejects
without closing. -/
def getOpenPort : BindOutcome → Except SupError Nat × List Event
  | BindOutcome.listenRefused =>
      (Except.error (SupError.allocationError "listen error"), [Event.netListenError])
  | BindOutcome.bound none =>
      (Except.error (SupError.allocationError "Failed to get port"), [Event.netBound])
  | BindOutcome.bound (some p) =>
      (Except.ok p, [Event.netBound, Event.netRelease])

/-- Translation of the loop body of waitForServer: fuel counts the remaining
attempts, i is the current attempt index, maxAttempts is the total budget
quoted in the timeout error.  Each attempt issues one probe with a 2000 ms
request timeout; a response with status below 500 returns success at once,
any other outcome sleeps 1000 ms and retries. -/
def waitLoop (probes : Nat → Option Nat) (port : JSNumber) (maxAttempts : Nat) :
    Nat → Nat → Except SupError Bool × List Event
  | 0, _ => (Except.error (SupError.readinessTimeout port maxAttempts), [])
  | fuel + 1, i =>
      match probes i with
      | some s =>
          if s < 500 then (Except.ok true, [Event.probe port 2000 (some s)])
          else
            ((waitLoop probes port maxAttempts fuel (i + 1)).1,
              Event.probe port 2000 (some s) :: Event.sleep 1000 ::
                (waitLoop probes port maxAttempts fuel (i + 1)).2)
      | none =>
          ((waitLoop probes port maxAttempts fuel (i + 1)).1,
            Event.probe port 2000 none :: Event.sleep 1000 ::
              (waitLoop probes port maxAttempts fuel (i + 1)).2)

/-- Translation of waitForServer: probe the session endpoint of the port up
to maxAttempts times (the source default for maxAttempts is 30, which is what
startServer uses). -/
def waitForServer (probes : Nat → Option Nat) (port : JSNumber) (maxAttempts : Nat) :
    Except SupError Bool × List Event :=
  waitLoop probes port maxAttempts maxAttempts 0

/-- The OS and environment inputs one run of the start sequence consumes. -/
structure StartEnv where
  dirOk : String → Bool
  envPort : Option String
  envPath : Option String
  home : String
  bind : BindOutcome
  probes : Nat → Option Nat

/-- Port allocation as fallback, with the OS port widened to the number type
of the port variable. -/
def allocFallback (b : BindOutcome) : Except SupError JSNumber × List Event :=
  ((getOpenPort b).1.map JSNumber.ofNat, (getOpenPort b).2)

/-- Translation of the port resolution of startServer: parsedPort is
Number(envPort) when the OPENCODE_PORT variable is truthy, and the parsed
value is used only when it is truthy and not NaN, otherwise an OS port is
allocated. -/
def resolvePort (envPort : Option String) (b : BindOutcome) :
    Except SupError JSNumber × List Event :=
  let parsedPort : Option JSNum :=
    match envPort with
    | some s => if s = "" then none else some (jsToNumber s)
    | none => none
  match parsedPort with
  | some (JSNum.num d) => if d.isZero then allocFallback b else (Except.ok d, [])
  | some JSNum.nan => allocFallback b
  | none => allocFallback b

/-- Translation of the binary path resolution: the OPENCODE_PATH variable
when truthy, else the fixed install location under the home directory. -/
def resolveOpencodePath (envPath : Option String) (home : String) : String :=
  match envPath with
  | some p => if p = "" then home ++ "/.opencode/bin/opencode" else p
  | none => home ++ "/.opencode/bin/opencode"

/-- The spawn invocation startServer performs for a resolved port. -/
def spawnEvent (env : StartEnv) (directory : String) (port : JSNumber) (pid : Nat) : Event :=
  Event.spawn (resolveOpencodePath env.envPath env.home)
    ["serve", "--port", port.render] directory opencodeConfigContent pid

/-- The instance record built after a successful readiness wait: both clients
bound to the loopback base URL of the port, timeout disabled. -/
def mkInstance (port : JSNumber) (directory : String) (pid : Nat) : OpenCodeServer :=
  { process := { pid := pid, killed := false }
    client := { baseUrl := "http://127.0.0.1:" ++ port.render, timeoutDisabled := true }
    clientV2 := { baseUrl := "http://127.0.0.1:" ++ port.render, timeoutDisabled := true }
    port := port
    directory := directory }

/-- Spawn the subprocess and block on the readiness probe; on probe failure
the error propagates and the singleton slot is untouched, on success the
instance is built, stored in the singleton slot and returned. -/
def spawnAndWait (env : StartEnv) (st : SupState) (directory : String)
    (port : JSNumber) (ptr : List Event) :
    Except SupError OpenCodeServer × SupState × List Event :=
  let pre := Event.dirCheck directory true :: ptr ++
    [Event.logInfo "Starting opencode serve", spawnEvent env directory port st.nextPid]
  match waitForServer env.probes port 30 with
  | (Except.error e, wtr) =>
      (Except.error e, { st with nextPid := st.nextPid + 1 }, pre ++ wtr)
  | (Except.ok _, wtr) =>
      (Except.ok (mkInstance port directory st.nextPid),
        { server := some (mkInstance port directory st.nextPid), nextPid := st.nextPid + 1 },
        pre ++ wtr ++ [Event.logInfo "Server ready", Event.assignSingleton st.nextPid])

/-- The fresh-start path of startServer: verify the directory is readable and
executable, resolve the port, then spawn and wait. -/
def startFresh (env : StartEnv) (st : SupState) (directory : String) :
    Except SupError OpenCodeServer × SupState × List Event :=
  if env.dirOk directory then
    match resolvePort env.envPort env.bind with
    | (Except.error e, ptr) => (Except.error e, st, Event.dirCheck directory true :: ptr)
    | (Except.ok port, ptr) => spawnAndWait env st directory port ptr
  else
    (Except.error (SupError.directoryError directory), st, [Event.dirCheck directory false])

/-- Translation of startServer: reuse the existing singleton when it is set
and its process has not been killed, otherwise run the fresh-start path. -/
def startServer (env : StartEnv) (st : SupState) (directory : String) :
    Except SupError OpenCodeServer × SupState × List Event :=
  match st.server with
  | some s =>
      if s.process.killed = false then
        (Except.ok s, st, [Event.logInfo "Reusing existing server"])
      else startFresh env st directory
  | none => startFresh env st directory

/-- Translation of getServer: read-only accessor of the singleton slot. -/
def getServer (st : SupState) : Option OpenCodeServer :=
  st.server

/-- Translation of stopServer: when an instance is stored, kill its process,
log, and clear the slot; otherwise do nothing. -/
def stopServer (st : SupState) : SupState × List Event :=
  match st.server with
  | some s =>
      ({ st with server := none },
        [Event.kill s.process.pid, Event.logInfo "Server stopped"])
  | none => (st, [])

/-- Translation of the exit listener registered on the spawned process: log
the exit, clear the singleton slot, and when the reported code is not 0
re-invoke the full start procedure for the same directory, catching any error
and logging it instead of surfacing it (the listener has no caller to reject
to).  The code argument models the Node exit code, none standing for the null
delivered on signal-termination. -/
def handleExit (env : StartEnv) (st : SupState) (directory : String)
    (code : Option Int) : SupState × List Event :=
  let st1 : SupState := { st with server := none }
  if code = some 0 then
    (st1, [Event.logInfo "Server exited", Event.clearSingleton])
  else
    let r := startServer env st1 directory
    (r.2.1, Event.logInfo "Server exited" :: Event.clearSingleton ::
      Event.logInfo "Restarting server" :: r.2.2 ++
        (match r.1 with
         | Except.ok _ => []
         | Except.error _ => [Event.logError "Failed to restart server"]))

/-- A live instance in the sense of the reuse check of startServer: the slot
is set and the killed flag of the process is false. -/
def live (st : SupState) : Bool :=
  match st.server with
  | some s => !s.process.killed
  | none => false

/-- Number of probe requests recorded in a trace. -/
def probeCount (tr : List Event) : Nat :=
  tr.countP fun e =>
    match e with
    | Event.probe _ _ _ => true
    | _ => false

/-- Condition under which the OPENCODE_PORT value is used as the port, in the
words of the claim: set, and coercing to a number that is neither NaN nor
zero. -/
def envPortUsable : Option String → Bool
  | none => false
  | some s =>
      match jsToNumber s with
      | JSNum.nan => false
      | JSNum.num d => !d.isZero

/-- Every event of a getOpenPort trace is a network event. -/
theorem getOpenPort_events (b : BindOutcome) (e : Event)
    (he : e ∈ (getOpenPort b).2) :
    e = Event.netListenError ∨ e = Event.netBound ∨ e = Event.netRelease := by
  cases b with
  | listenRefused => simp [getOpenPort] at he; simp [he]
  | bound addr =>
      cases addr with
      | none => simp [getOpenPort] at he; simp [he]
      | some p => simp [getOpenPort] at he; rcases he with h | h <;> simp [h]

/-- Every event of a resolvePort trace is a network event. -/
theorem resolvePort_events (ep : Option String) (b : BindOutcome) (e : Event)
    (he : e ∈ (resolvePort ep b).2) :
    e = Event.netListenError ∨ e = Event.netBound ∨ e = Event.netRelease := by
  simp only [resolvePort, allocFallback] at he
  repeat' split at he
  all_goals first
    | exact getOpenPort_events b e he
    | simp at he

/-- Every event of a waitLoop trace is a probe of the given port with the
2000 ms request timeout, or a 1000 ms sleep. -/
theorem waitLoop_events (probes : Nat → Option Nat) (port : JSNumber) (M : Nat) :
    ∀ fuel i e, e ∈ (waitLoop probes port M fuel i).2 →
      (∃ o, e = Event.probe port 2000 o) ∨ e = Event.sleep 1000 := by
  intro fuel
  induction fuel with
  | zero => intro i e he; simp [waitLoop] at he
  | succ n ih =>
      intro i e he
      simp only [waitLoop] at he
      rcases hp : probes i with _ | s
      · rw [hp] at he
        simp at he
        rcases he with h | h | h
        · exact Or.inl ⟨none, h⟩
        · exact Or.inr h
        · exact ih (i + 1) e h
      · rw [hp] at he
        by_cases hs : s < 500
        · simp [hs] at he
          exact Or.inl ⟨some s, he⟩
        · simp [hs] at he
          rcases he with h | h | h
          · exact Or.inl ⟨some s, h⟩
          · exact Or.inr h
          · exact ih (i + 1) e h

/-- A waitLoop run issues at most fuel probes. -/
theorem waitLoop_count (probes : Nat → Option Nat) (port : JSNumber) (M : Nat) :
    ∀ fuel i, probeCount (waitLoop probes port M fuel i).2 ≤ fuel := by
  intro fuel
  induction fuel with
  | zero => intro i; simp [waitLoop, probeCount]
  | succ n ih =>
      intro i
      simp only [waitLoop]
      rcases hp : probes i with _ | s
      · simp [probeCount, List.countP_cons]
        have := ih (i + 1)
        simp [probeCount] at this
        omega
      · by_cases hs : s < 500
        · simp [hs, probeCount, List.countP_cons]
        · simp [hs, probeCount, List.countP_cons]
          have := ih (i + 1)
          simp [probeCount] at this
          omega

/-- A waitLoop run succeeds exactly when some attempt within the fuel budget
gets a response with status below 500. -/
theorem waitLoop_ok_iff (probes : Nat → Option Nat) (port : JSNumber) (M : Nat) :
    ∀ fuel i, (waitLoop probes port M fuel i).1 = Except.ok true ↔
      ∃ k, k < fuel ∧ ∃ s, probes (i + k) = some s ∧ s < 500 := by
  intro fuel
  induction fuel with
  | zero => intro i; simp [waitLoop]
  | succ n ih =>
      intro i
      simp only [waitLoop]
      rcases hp : probes i with _ | s
      · simp only []
        rw [ih (i + 1)]
        constructor
        · rintro ⟨k, hk, s, hs, hlt⟩
          exact ⟨k + 1, by omega, s, by rw [show i + (k + 1) = i + 1 + k by omega]; exact hs, hlt⟩
        · rintro ⟨k, hk, s, hs, hlt⟩
          cases k with
          | zero => rw [Nat.add_zero] at hs; rw [hs] at hp; cases hp
          | succ m =>
              exact ⟨m, by omega, s, by rw [show i + 1 + m = i + (m + 1) by omega]; exact hs, hlt⟩
      · by_cases hs : s < 500
        · simp only [hs, if_true]
          constructor
          · intro _; exact ⟨0, by omega, s, by simpa using hp, hs⟩
          · intro _; trivial
        · simp only [hs, if_false]
          rw [ih (i + 1)]
          constructor
          · rintro ⟨k, hk, s2, hs2, hlt⟩
            exact ⟨k + 1, by omega, s2, by rw [show i + (k + 1) = i + 1 + k by omega]; exact hs2, hlt⟩
          · rintro ⟨k, hk, s2, hs2, hlt⟩
            cases k with
            | zero =>
                rw [Nat.add_zero] at hs2; rw [hs2] at hp
                cases hp; omega
            | succ m =>
                exact ⟨m, by omega, s2,
                  by rw [show i + 1 + m = i + (m + 1) by omega]; exact hs2, hlt⟩

/-- When no attempt within the fuel budget gets a sub-500 response, waitLoop
fails with the readiness timeout error and has issued exactly fuel probes. -/
theorem waitLoop_fail (probes : Nat → Option Nat) (port : JSNumber) (M : Nat) :
    ∀ fuel i, (∀ k, k < fuel → ∀ s, probes (i + k) = some s → 500 ≤ s) →
      (waitLoop probes port M fuel i).1 = Except.error (SupError.readinessTimeout port M)
      ∧ probeCount (waitLoop probes port M fuel i).2 = fuel := by
  intro fuel
  induction fuel with
  | zero => intro i _; simp [waitLoop, probeCount]
  | succ n ih =>
      intro i hall
      simp only [waitLoop]
      have hrec := ih (i + 1) (by
        intro k hk s hs
        exact hall (k + 1) (by omega) s (by rw [show i + (k + 1) = i + 1 + k by omega]; exact hs))
      rcases hp : probes i with _ | s
      · simp [probeCount, List.countP_cons]
        refine ⟨hrec.1, ?_⟩
        have := hrec.2
        simp [probeCount] at this
        omega
      · have h500 : 500 ≤ s := hall 0 (by omega) s (by simpa using hp)
        have hs : ¬ s < 500 := by omega
        simp [hs, probeCount, List.countP_cons]
        refine ⟨hrec.1, ?_⟩
        have := hrec.2
        simp [probeCount] at this
        omega

/-- A successful waitLoop trace ends with the successful probe. -/
theorem waitLoop_ok_tail (probes : Nat → Option Nat) (port : JSNumber) (M : Nat) :
    ∀ fuel i b, (waitLoop probes port M fuel i).1 = Except.ok b →
      ∃ pre s, (waitLoop probes port M fuel i).2 =
        pre ++ [Event.probe port 2000 (some s)] ∧ s < 500 := by
  intro fuel
  induction fuel with
  | zero => intro i b h; simp [waitLoop] at h
  | succ n ih =>
      intro i b h
      simp only [waitLoop] at h ⊢
      rcases hp : probes i with _ | s
      · simp only [hp] at h ⊢
        rcases ih (i + 1) b h with ⟨pre, s, htr, hlt⟩
        exact ⟨Event.probe port 2000 none :: Event.sleep 1000 :: pre, s, by simp [htr], hlt⟩
      · simp only [hp] at h ⊢
        by_cases hs : s < 500
        · refine ⟨[], s, ?_, hs⟩
          simp [hs]
        · rcases ih (i + 1) b (by simpa [hs] using h) with ⟨pre, s2, htr, hlt⟩
          refine ⟨Event.probe port 2000 (some s) :: Event.sleep 1000 :: pre, s2, ?_, hlt⟩
          simp [hs, htr]

/-- When no live instance exists, startServer runs the fresh-start path. -/
theorem startServer_of_not_live (env : StartEnv) (st : SupState) (d : String)
    (h : live st = false) :
    startServer env st d = startFresh env st d := by
  cases hs : st.server with
  | none => simp [startServer, hs]
  | some s =>
      have hk : s.process.killed = true := by
        simp [live, hs] at h
        exact h
      simp [startServer, hs, hk]

/-- The empty string coerces to numeric zero. -/
theorem jsToNumber_empty :
    jsToNumber "" = JSNum.num (JSNumber.finite { mantissa := 0, exp10 := 0 }) := by
  decide

/-- Exhaustive description of the four outcomes of the fresh-start path:
directory failure, port resolution failure, readiness failure after the
spawn, and full success. -/
theorem startFresh_cases (env : StartEnv) (st : SupState) (d : String) :
    (env.dirOk d = false ∧ startFresh env st d =
        (Except.error (SupError.directoryError d), st, [Event.dirCheck d false]))
    ∨ (∃ er ptr, env.dirOk d = true ∧
        resolvePort env.envPort env.bind = (Except.error er, ptr) ∧
        startFresh env st d = (Except.error er, st, Event.dirCheck d true :: ptr))
    ∨ (∃ port ptr er wtr, env.dirOk d = true ∧
        resolvePort env.envPort env.bind = (Except.ok port, ptr) ∧
        waitForServer env.probes port 30 = (Except.error er, wtr) ∧
        startFresh env st d = (Except.error er, { st with nextPid := st.nextPid + 1 },
          (Event.dirCheck d true :: ptr ++ [Event.logInfo "Starting opencode serve",
            spawnEvent env d port st.nextPid]) ++ wtr))
    ∨ (∃ port ptr b wtr, env.dirOk d = true ∧
        resolvePort env.envPort env.bind = (Except.ok port, ptr) ∧
        waitForServer env.probes port 30 = (Except.ok b, wtr) ∧
        startFresh env st d = (Except.ok (mkInstance port d st.nextPid),
          { server := some (mkInstance port d st.nextPid), nextPid := st.nextPid + 1 },
          (Event.dirCheck d true :: ptr ++ [Event.logInfo "Starting opencode serve",
            spawnEvent env d port st.nextPid]) ++ wtr ++
            [Event.logInfo "Server ready", Event.assignSingleton st.nextPid])) := by
  by_cases hd : env.dirOk d
  · rcases hr : resolvePort env.envPort env.bind with ⟨r1, r2⟩
    cases r1 with
    | error e =>
        exact Or.inr (Or.inl ⟨e, r2, hd, rfl, by simp [startFresh, hd, hr]⟩)
    | ok port =>
        rcases hw : waitForServer env.probes port 30 with ⟨w1, w2⟩
        cases w1 with
        | error er =>
            refine Or.inr (Or.inr (Or.inl ⟨port, r2, er, w2, hd, rfl, hw, ?_⟩))
            simp [startFresh, spawnAndWait, hd, hr, hw]
        | ok b =>
            refine Or.inr (Or.inr (Or.inr ⟨port, r2, b, w2, hd, rfl, hw, ?_⟩))
            simp [startFresh, spawnAndWait, hd, hr, hw]
  · exact Or.inl ⟨by simpa using hd, by simp [startFresh, hd]⟩

/-- A set OPENCODE_PORT value coercing to a nonzero number is used directly:
no allocation happens and no network event is emitted. -/
theorem resolvePort_usable (s : String) (dv : JSNumber) (b : BindOutcome)
    (hj : jsToNumber s = JSNum.num dv) (hz : dv.isZero = false) :
    resolvePort (some s) b = (Except.ok dv, []) := by
  have hne : s ≠ "" := by
    intro he
    rw [he, jsToNumber_empty] at hj
    cases hj
    simp [JSNumber.isZero, JSDecimal.isZero] at hz
  simp [resolvePort, hne, hj, hz]

/-- An OPENCODE_PORT value that is unset or coerces to NaN or zero falls back
to OS port allocation. -/
theorem resolvePort_unusable (ep : Option String) (b : BindOutcome)
    (h : envPortUsable ep = false) :
    resolvePort ep b = allocFallback b := by
  cases ep with
  | none => simp [resolvePort]
  | some s =>
      by_cases hne : s = ""
      · simp [resolvePort, hne]
      · rcases hj : jsToNumber s with _ | dv
        · simp [resolvePort, hne, hj]
        · have hz : dv.isZero = true := by
            simp [envPortUsable, hj] at h
            exact h
          simp [resolvePort, hne, hj, hz]

/-- Every event of a waitForServer trace is a probe or a sleep. -/
theorem waitForServer_events (probes : Nat → Option Nat) (port : JSNumber) (M : Nat)
    (e : Event) (he : e ∈ (waitForServer probes port M).2) :
    (∃ o, e = Event.probe port 2000 o) ∨ e = Event.sleep 1000 :=
  waitLoop_events probes port M M 0 e he

/-- The port field and process identity of a built instance. -/
theorem mkInstance_fields (port : JSNumber) (d : String) (pid : Nat) :
    (mkInstance port d pid).port = port ∧ (mkInstance port d pid).process.pid = pid
    ∧ (mkInstance port d pid).process.killed = false ∧ (mkInstance port d pid).directory = d := by
  simp [mkInstance]

/-- A failing fresh start leaves the singleton slot exactly as it was. -/
theorem startFresh_error_server (env : StartEnv) (st : SupState) (d : String)
    (er : SupError) (h : (startFresh env st d).1 = Except.error er) :
    (startFresh env st d).2.1.server = st.server := by
  rcases startFresh_cases env st d with ⟨hd, he⟩ | ⟨e, ptr, hd, hr, he⟩ |
    ⟨port, ptr, er2, wtr, hd, hr, hw, he⟩ | ⟨port, ptr, b, wtr, hd, hr, hw, he⟩
  · simp [he]
  · simp [he]
  · simp [he]
  · rw [he] at h; simp at h

/-- A failing fresh start never records a singleton assignment. -/
theorem startFresh_no_assign_of_error (env : StartEnv) (st : SupState) (d : String)
    (er : SupError) (h : (startFresh env st d).1 = Except.error er) :
    ∀ pid, Event.assignSingleton pid ∉ (startFresh env st d).2.2 := by
  intro pid hm
  rcases startFresh_cases env st d with ⟨hd, he⟩ | ⟨e, ptr, hd, hr, he⟩ |
    ⟨port, ptr, er2, wtr, hd, hr, hw, he⟩ | ⟨port, ptr, b, wtr, hd, hr, hw, he⟩
  · rw [he] at hm; simp at hm
  · rw [he] at hm
    simp at hm
    have hptr : (resolvePort env.envPort env.bind).2 = ptr := by rw [hr]
    have := resolvePort_events env.envPort env.bind (Event.assignSingleton pid)
      (by rw [hptr]; exact hm)
    simp at this
  · rw [he] at hm
    simp [spawnEvent] at hm
    rcases hm with hm | hm
    · have hptr : (resolvePort env.envPort env.bind).2 = ptr := by rw [hr]
      have := resolvePort_events env.envPort env.bind (Event.assignSingleton pid)
        (by rw [hptr]; exact hm)
      simp at this
    · have hwtr : (waitForServer env.probes port 30).2 = wtr := by rw [hw]
      have := waitForServer_events env.probes port 30 (Event.assignSingleton pid)
        (by rw [hwtr]; exact hm)
      simp at this
  · rw [he] at h; simp at h

/-- Every fresh start records the directory check with its outcome. -/
theorem startFresh_dirCheck_mem (env : StartEnv) (st : SupState) (d : String) :
    Event.dirCheck d (env.dirOk d) ∈ (startFresh env st d).2.2 := by
  rcases startFresh_cases env st d with ⟨hd, he⟩ | ⟨e, ptr, hd, hr, he⟩ |
    ⟨port, ptr, er2, wtr, hd, hr, hw, he⟩ | ⟨port, ptr, b, wtr, hd, hr, hw, he⟩
  · rw [he, hd]; simp
  · rw [he, hd]; simp
  · rw [he, hd]; simp
  · rw [he, hd]; simp

/-- Concrete environment in which every start succeeds on the first probe. -/
def wEnvOk : StartEnv :=
  { dirOk := fun _ => true, envPort := none, envPath := none, home := "/home/u"
    bind := BindOutcome.bound (some 4242), probes := fun _ => some 200 }

/-- Concrete environment in which every directory check fails and no network
or probe activity can succeed. -/
def wEnvBadDir : StartEnv :=
  { dirOk := fun _ => false, envPort := none, envPath := none, home := "/home/u"
    bind := BindOutcome.listenRefused, probes := fun _ => none }

/-- Concrete supervisor state with an empty singleton slot. -/
def wStNone : SupState := { server := none, nextPid := 0 }

/-- Concrete instance used as the live singleton of wStLive. -/
def wInst : OpenCodeServer := mkInstance (JSNumber.ofNat 4242) "/proj" 1

/-- Concrete supervisor state holding a live instance. -/
def wStLive : SupState := { server := some wInst, nextPid := 2 }

/-- C1: a start call that takes the fresh-spawn path exposes an instance,
through its return value and through the singleton slot that getServer
reads, only when the readiness probe on the port of that instance has
succeeded, and the successful probe strictly precedes the singleton
assignment in the trace; a failed start records no assignment at all and
leaves the slot unchanged, so no caller of start or of getServer observes an
instance whose readiness probe has not succeeded. -/
theorem startServer_assigns_only_after_ready (env : StartEnv) (st : SupState) (d : String)
    (hlive : live st = false) :
    (∀ inst, (startServer env st d).1 = Except.ok inst →
        getServer (startServer env st d).2.1 = some inst
        ∧ ∃ pre s, (startServer env st d).2.2 =
            pre ++ [Event.probe inst.port 2000 (some s), Event.logInfo "Server ready",
              Event.assignSingleton inst.process.pid] ∧ s < 500)
    ∧ (∀ er, (startServer env st d).1 = Except.error er →
        (∀ pid, Event.assignSingleton pid ∉ (startServer env st d).2.2)
        ∧ getServer (startServer env st d).2.1 = getServer st) := by
  rw [startServer_of_not_live env st d hlive]
  constructor
  · intro inst h
    rcases startFresh_cases env st d with ⟨hd, he⟩ | ⟨e, ptr, hd, hr, he⟩ |
      ⟨port, ptr, er2, wtr, hd, hr, hw, he⟩ | ⟨port, ptr, b, wtr, hd, hr, hw, he⟩
    · rw [he] at h; simp at h
    · rw [he] at h; simp at h
    · rw [he] at h; simp at h
    · rw [he] at h
      simp at h
      subst h
      constructor
      · simp [he, getServer]
      · have hok : (waitForServer env.probes port 30).1 = Except.ok b := by rw [hw]
        obtain ⟨wpre, s, htr, hs⟩ := waitLoop_ok_tail env.probes port 30 30 0 b hok
        have hw2 : (waitForServer env.probes port 30).2 = wtr := by rw [hw]
        have hwtr : wtr = wpre ++ [Event.probe port 2000 (some s)] := by
          rw [← hw2]; exact htr
        refine ⟨(Event.dirCheck d true :: ptr ++ [Event.logInfo "Starting opencode serve",
          spawnEvent env d port st.nextPid]) ++ wpre, s, ?_, hs⟩
        rw [he, hwtr]
        simp [mkInstance, List.append_assoc]
  · intro er h
    exact ⟨startFresh_no_assign_of_error env st d er h,
      by simp [getServer, startFresh_error_server env st d er h]⟩

/-- C1 witness at a concrete successful run. -/
theorem startServer_assigns_only_after_ready_witness :
    getServer (startServer wEnvOk wStNone "/proj").2.1 =
      some (mkInstance (JSNumber.ofNat 4242) "/proj" 0) :=
  ((startServer_assigns_only_after_ready wEnvOk wStNone "/proj" (by decide)).1
    (mkInstance (JSNumber.ofNat 4242) "/proj" 0) (by decide)).1

/-- C2: invoking start while a live instance exists returns that identical
instance with the state unchanged, whatever directory is requested, and the
trace shows no directory check, no port allocation and no spawn. -/
theorem startServer_reuses_live_instance (env : StartEnv) (st : SupState)
    (s : OpenCodeServer) (d : String) (hs : st.server = some s)
    (hk : s.process.killed = false) :
    startServer env st d = (Except.ok s, st, [Event.logInfo "Reusing existing server"]) := by
  simp [startServer, hs, hk]

/-- C2 witness: a second start with a different directory returns the stored
instance unchanged. -/
theorem startServer_reuses_live_instance_witness :
    startServer wEnvOk wStLive "/other" =
      (Except.ok wInst, wStLive, [Event.logInfo "Reusing existing server"]) :=
  startServer_reuses_live_instance wEnvOk wStLive wInst "/other" rfl rfl

/-- C3: stopping a live instance kills its subprocess and clears the
singleton, so getServer returns none; the cooperative zero-exit report that
follows leaves the slot none and schedules no restart work; stop with no
live instance is a no-op, and further zero-exit reports keep the slot none
until an explicit new start. -/
theorem stopServer_clears_and_stays_down (env : StartEnv) (st : SupState)
    (s : OpenCodeServer) (d : String) (hs : st.server = some s) :
    stopServer st = ({ st with server := none },
        [Event.kill s.process.pid, Event.logInfo "Server stopped"])
    ∧ getServer (stopServer st).1 = none
    ∧ handleExit env (stopServer st).1 d (some 0) =
        ({ st with server := none }, [Event.logInfo "Server exited", Event.clearSingleton])
    ∧ (∀ st2 : SupState, st2.server = none → stopServer st2 = (st2, []))
    ∧ (∀ st2 : SupState, st2.server = none →
        (handleExit env st2 d (some 0)).1.server = none
        ∧ (handleExit env st2 d (some 0)).2 =
            [Event.logInfo "Server exited", Event.clearSingleton]) := by
  refine ⟨by simp [stopServer, hs], by simp [stopServer, hs, getServer], ?_, ?_, ?_⟩
  · simp [stopServer, hs, handleExit]
  · intro st2 h2; simp [stopServer, h2]
  · intro st2 h2; simp [handleExit]

/-- C3 witness at a concrete live state. -/
theorem stopServer_clears_and_stays_down_witness :
    stopServer wStLive = ({ wStLive with server := none },
      [Event.kill 1, Event.logInfo "Server stopped"]) :=
  (stopServer_clears_and_stays_down wEnvOk wStLive wInst "/proj" rfl).1

/-- C4: whatever the prior state, the exit listener logs and clears the
singleton slot before any restart work appears in its trace; on a reported
code other than zero it re-invokes the full start procedure for the same
directory on the cleared slot (so a restart attempt, visible as a directory
check, happens on every such exit, with no counter bounding consecutive
attempts), and an error of that restart is only logged, never surfaced, with
the slot left none. -/
theorem exit_listener_clears_then_restarts (env : StartEnv) (st : SupState)
    (d : String) (code : Option Int) :
    (∃ rest, (handleExit env st d code).2 =
        Event.logInfo "Server exited" :: Event.clearSingleton :: rest)
    ∧ (code = some 0 → handleExit env st d code =
        ({ st with server := none }, [Event.logInfo "Server exited", Event.clearSingleton]))
    ∧ (code ≠ some 0 →
        (handleExit env st d code).1 = (startServer env { st with server := none } d).2.1
        ∧ (handleExit env st d code).2 =
            Event.logInfo "Server exited" :: Event.clearSingleton ::
              Event.logInfo "Restarting server" ::
                (startServer env { st with server := none } d).2.2 ++
              (match (startServer env { st with server := none } d).1 with
               | Except.ok _ => []
               | Except.error _ => [Event.logError "Failed to restart server"])
        ∧ Event.dirCheck d (env.dirOk d) ∈ (handleExit env st d code).2
        ∧ (∀ er, (startServer env { st with server := none } d).1 = Except.error er →
            (handleExit env st d code).1.server = none)) := by
  have hfresh : startServer env { st with server := none } d =
      startFresh env { st with server := none } d :=
    startServer_of_not_live env _ d (by simp [live])
  by_cases hc : code = some 0
  · refine ⟨⟨[], by simp [handleExit, hc]⟩, fun _ => by simp [handleExit, hc],
      fun hne => absurd hc hne⟩
  · refine ⟨⟨Event.logInfo "Restarting server" ::
        (startServer env { st with server := none } d).2.2 ++
        (match (startServer env { st with server := none } d).1 with
         | Except.ok _ => []
         | Except.error _ => [Event.logError "Failed to restart server"]),
      by simp [handleExit, hc]⟩, fun h0 => absurd h0 hc, fun _ => ?_⟩
    refine ⟨by simp [handleExit, hc], by simp [handleExit, hc], ?_, ?_⟩
    · have hmem := startFresh_dirCheck_mem env { st with server := none } d
      rw [← hfresh] at hmem
      simp [handleExit, hc, hmem]
    · intro er h
      have h2 : (startFresh env { st with server := none } d).1 = Except.error er := by
        rw [← hfresh]; exact h
      have h3 := startFresh_error_server env { st with server := none } d er h2
      simp [handleExit, hc, hfresh, h3]

/-- C4 witness: a crash exit with a failing restart leaves the slot none. -/
theorem exit_listener_clears_then_restarts_witness :
    (handleExit wEnvBadDir wStNone "/nope" (some 1)).1.server = none :=
  ((exit_listener_clears_then_restarts wEnvBadDir wStNone "/nope" (some 1)).2.2
    (by decide)).2.2.2 (SupError.directoryError "/nope") (by decide)

/-- C5: waitForServer issues at most maxAttempts probe requests, each with
the 2000 ms per-attempt timeout and 1000 ms inter-attempt sleeps; it succeeds
exactly when some attempt within the budget answers with a status below 500,
in particular immediately with a single probe when the first attempt does;
when no attempt qualifies it fails with the readiness timeout error carrying
the port and the attempt count after exactly maxAttempts probes, and every
success ends the trace at the qualifying probe. -/
theorem waitForServer_spec (probes : Nat → Option Nat) (port : JSNumber)
    (maxAttempts : Nat) :
    probeCount (waitForServer probes port maxAttempts).2 ≤ maxAttempts
    ∧ (∀ e ∈ (waitForServer probes port maxAttempts).2,
        (∃ o, e = Event.probe port 2000 o) ∨ e = Event.sleep 1000)
    ∧ ((waitForServer probes port maxAttempts).1 = Except.ok true ↔
        ∃ k, k < maxAttempts ∧ ∃ s, probes k = some s ∧ s < 500)
    ∧ (∀ s, 0 < maxAttempts → probes 0 = some s → s < 500 →
        waitForServer probes port maxAttempts =
          (Except.ok true, [Event.probe port 2000 (some s)]))
    ∧ ((∀ k, k < maxAttempts → ∀ s, probes k = some s → 500 ≤ s) →
        (waitForServer probes port maxAttempts).1 =
          Except.error (SupError.readinessTimeout port maxAttempts)
        ∧ probeCount (waitForServer probes port maxAttempts).2 = maxAttempts)
    ∧ (∀ b, (waitForServer probes port maxAttempts).1 = Except.ok b →
        ∃ pre s, (waitForServer probes port maxAttempts).2 =
          pre ++ [Event.probe port 2000 (some s)] ∧ s < 500) := by
  refine ⟨waitLoop_count probes port maxAttempts maxAttempts 0,
    fun e he => waitLoop_events probes port maxAttempts maxAttempts 0 e he,
    ?_, ?_, ?_,
    fun b h => waitLoop_ok_tail probes port maxAttempts maxAttempts 0 b h⟩
  · have h := waitLoop_ok_iff probes port maxAttempts maxAttempts 0
    simpa using h
  · intro s hM hp hs
    cases maxAttempts with
    | zero => omega
    | succ n => simp [waitForServer, waitLoop, hp, hs]
  · intro hall
    exact waitLoop_fail probes port maxAttempts maxAttempts 0
      (fun k hk s hs => hall k hk s (by simpa using hs))

/-- C5 witness: a first-attempt sub-500 answer succeeds with one probe. -/
theorem waitForServer_spec_witness :
    waitForServer (fun _ => some 200) (JSNumber.finite { mantissa := 3000, exp10 := 0 }) 30 =
      (Except.ok true, [Event.probe (JSNumber.finite { mantissa := 3000, exp10 := 0 }) 2000 (some 200)]) :=
  (waitForServer_spec (fun _ => some 200) (JSNumber.finite { mantissa := 3000, exp10 := 0 }) 30).2.2.2.1
    200 (by decide) rfl (by decide)

/-- C6 counterexample: at this concrete input the requested directory is
inaccessible yet start does not fail with DirectoryError, because a live
instance exists and is returned instead. -/
theorem start_bad_dir_with_live_instance_cex :
    wEnvBadDir.dirOk "/nope" = false
    ∧ (startServer wEnvBadDir wStLive "/nope").1 = Except.ok wInst := by
  exact ⟨rfl, by decide⟩

/-- C6 (amended): when no live instance exists, start on a directory that is
not readable and executable fails with DirectoryError before any port
allocation and before any spawn: the trace holds only the failed directory
check and the supervisor state is returned unchanged. -/
theorem start_dir_error_before_resources (env : StartEnv) (st : SupState)
    (d : String) (hlive : live st = false) (hdir : env.dirOk d = false) :
    startServer env st d =
      (Except.error (SupError.directoryError d), st, [Event.dirCheck d false]) := by
  rw [startServer_of_not_live env st d hlive]
  simp [startFresh, hdir]

/-- C6 witness at a concrete empty state and inaccessible directory. -/
theorem start_dir_error_before_resources_witness :
    startServer wEnvBadDir wStNone "/nope" =
      (Except.error (SupError.directoryError "/nope"), wStNone,
        [Event.dirCheck "/nope" false]) :=
  start_dir_error_before_resources wEnvBadDir wStNone "/nope" rfl rfl

/-- Any spawn event of a fresh start is the one built by spawnEvent: binary
from the path resolution, serve --port with the resolved port, the requested
directory as working directory, and the injected configuration. -/
theorem startFresh_spawn_mem (env : StartEnv) (st : SupState) (d : String)
    (p : String) (a : List String) (c : String) (cfg : InjectedConfig) (pid : Nat)
    (hmem : Event.spawn p a c cfg pid ∈ (startFresh env st d).2.2) :
    p = resolveOpencodePath env.envPath env.home
    ∧ (∃ q, (resolvePort env.envPort env.bind).1 = Except.ok q
        ∧ a = ["serve", "--port", q.render])
    ∧ c = d ∧ cfg = opencodeConfigContent := by
  rcases startFresh_cases env st d with ⟨hd, he⟩ | ⟨e, ptr, hd, hr, he⟩ |
    ⟨port, ptr, er2, wtr, hd, hr, hw, he⟩ | ⟨port, ptr, b, wtr, hd, hr, hw, he⟩
  · rw [he] at hmem; simp at hmem
  · rw [he] at hmem
    simp at hmem
    have hptr : (resolvePort env.envPort env.bind).2 = ptr := by rw [hr]
    have := resolvePort_events env.envPort env.bind _ (by rw [hptr]; exact hmem)
    simp at this
  · rw [he] at hmem
    simp [spawnEvent] at hmem
    rcases hmem with hm | hm | hm
    · have hptr : (resolvePort env.envPort env.bind).2 = ptr := by rw [hr]
      have := resolvePort_events env.envPort env.bind _ (by rw [hptr]; exact hm)
      simp at this
    · exact ⟨hm.1, ⟨port, by rw [hr], hm.2.1⟩, hm.2.2.1, hm.2.2.2.1⟩
    · have hwtr : (waitForServer env.probes port 30).2 = wtr := by rw [hw]
      have := waitForServer_events env.probes port 30 _ (by rw [hwtr]; exact hm)
      simp at this
  · rw [he] at hmem
    simp [spawnEvent] at hmem
    rcases hmem with hm | hm | hm
    · have hptr : (resolvePort env.envPort env.bind).2 = ptr := by rw [hr]
      have := resolvePort_events env.envPort env.bind _ (by rw [hptr]; exact hm)
      simp at this
    · exact ⟨hm.1, ⟨port, by rw [hr], hm.2.1⟩, hm.2.2.1, hm.2.2.2.1⟩
    · have hwtr : (waitForServer env.probes port 30).2 = wtr := by rw [hw]
      have := waitForServer_events env.probes port 30 _ (by rw [hwtr]; exact hm)
      simp at this

/-- C7: every spawn a start run performs invokes the binary resolved from
the OPENCODE_PATH override or else the fixed default install location, with
arguments serve --port followed by the resolved port, working directory the
requested directory, and the injected configuration carrying the schema
reference, lsp disabled, formatter disabled and edit, bash and webfetch all
set to allow. -/
theorem spawn_invocation_spec (env : StartEnv) (st : SupState) (d : String)
    (p : String) (a : List String) (c : String) (cfg : InjectedConfig) (pid : Nat)
    (hmem : Event.spawn p a c cfg pid ∈ (startServer env st d).2.2) :
    p = resolveOpencodePath env.envPath env.home
    ∧ (∃ q, (resolvePort env.envPort env.bind).1 = Except.ok q
        ∧ a = ["serve", "--port", q.render])
    ∧ c = d
    ∧ cfg = opencodeConfigContent
    ∧ cfg.schema = "https://opencode.ai/config.json"
    ∧ cfg.lsp = false ∧ cfg.formatter = false
    ∧ cfg.permissionEdit = "allow" ∧ cfg.permissionBash = "allow"
    ∧ cfg.permissionWebfetch = "allow" := by
  have hbase : p = resolveOpencodePath env.envPath env.home
      ∧ (∃ q, (resolvePort env.envPort env.bind).1 = Except.ok q
          ∧ a = ["serve", "--port", q.render])
      ∧ c = d ∧ cfg = opencodeConfigContent := by
    cases hs : st.server with
    | none =>
        rw [startServer, hs] at hmem
        exact startFresh_spawn_mem env st d p a c cfg pid hmem
    | some s =>
        by_cases hk : s.process.killed = false
        · rw [startServer, hs] at hmem
          simp [hk] at hmem
        · rw [startServer, hs] at hmem
          simp [hk] at hmem
          exact startFresh_spawn_mem env st d p a c cfg pid hmem
  refine ⟨hbase.1, hbase.2.1, hbase.2.2.1, hbase.2.2.2, ?_, ?_, ?_, ?_, ?_, ?_⟩ <;>
    rw [hbase.2.2.2] <;> rfl

/-- C7 witness: the concrete successful run spawns the default binary with
serve --port 4242 in the requested directory under the injected
configuration. -/
theorem spawn_invocation_spec_witness :
    "/home/u/.opencode/bin/opencode" = resolveOpencodePath wEnvOk.envPath wEnvOk.home
    ∧ opencodeConfigContent.lsp = false :=
  ⟨(spawn_invocation_spec wEnvOk wStNone "/proj" "/home/u/.opencode/bin/opencode"
      ["serve", "--port", "4242"] "/proj" opencodeConfigContent 0 (by decide)).1,
    (spawn_invocation_spec wEnvOk wStNone "/proj" "/home/u/.opencode/bin/opencode"
      ["serve", "--port", "4242"] "/proj" opencodeConfigContent 0 (by decide)).2.2.2.2.2.1⟩

/-- C8 counterexample: at the concrete input where the bound address cannot
be introspected, the call fails but the trace holds the bind and no release,
so the bound socket is left open, a side effect beyond a transient bind and
release. -/
theorem getOpenPort_leaked_socket_cex :
    (getOpenPort (BindOutcome.bound none)).2 = [Event.netBound]
    ∧ Event.netRelease ∉ (getOpenPort (BindOutcome.bound none)).2
    ∧ (getOpenPort (BindOutcome.bound none)).1 =
        Except.error (SupError.allocationError "Failed to get port") := by
  exact ⟨rfl, by decide, rfl⟩

/-- C8 (amended): getOpenPort binds a listener on port 0 and, on success,
reads back the OS-assigned port, releases the socket and returns exactly
that port; it fails with AllocationError when the OS refuses the bind
(nothing was bound) and when the bound address cannot be introspected, in
which case the socket stays bound and is not released. -/
theorem getOpenPort_spec (b : BindOutcome) :
    (∀ p, b = BindOutcome.bound (some p) →
        getOpenPort b = (Except.ok p, [Event.netBound, Event.netRelease]))
    ∧ (b = BindOutcome.listenRefused →
        ∃ m, getOpenPort b = (Except.error (SupError.allocationError m),
          [Event.netListenError]))
    ∧ (b = BindOutcome.bound none →
        ∃ m, getOpenPort b = (Except.error (SupError.allocationError m),
          [Event.netBound])) := by
  refine ⟨?_, ?_, ?_⟩
  · intro p hp; subst hp; rfl
  · intro hp; subst hp; exact ⟨"listen error", rfl⟩
  · intro hp; subst hp; exact ⟨"Failed to get port", rfl⟩

/-- C8 witness: the success path returns the read-back port after bind and
release. -/
theorem getOpenPort_spec_witness :
    getOpenPort (BindOutcome.bound (some 5555)) =
      (Except.ok 5555, [Event.netBound, Event.netRelease]) :=
  (getOpenPort_spec (BindOutcome.bound (some 5555))).1 5555 rfl

/-- A fresh start whose port resolution emitted no network events performs no
bind at all. -/
theorem startFresh_no_alloc (env : StartEnv) (st : SupState) (d : String)
    (h : (resolvePort env.envPort env.bind).2 = []) :
    Event.netBound ∉ (startFresh env st d).2.2
    ∧ Event.netListenError ∉ (startFresh env st d).2.2 := by
  rcases startFresh_cases env st d with ⟨hd, he⟩ | ⟨e, ptr, hd, hr, he⟩ |
    ⟨port, ptr, er2, wtr, hd, hr, hw, he⟩ | ⟨port, ptr, b, wtr, hd, hr, hw, he⟩
  · rw [he]; simp
  · rw [hr] at h
    simp at h
    rw [he, h]; simp
  · rw [hr] at h
    simp at h
    subst h
    rw [he]
    constructor
    · intro hm
      simp [spawnEvent] at hm
      have hwtr : (waitForServer env.probes port 30).2 = wtr := by rw [hw]
      have := waitForServer_events env.probes port 30 _ (by rw [hwtr]; exact hm)
      simp at this
    · intro hm
      simp [spawnEvent] at hm
      have hwtr : (waitForServer env.probes port 30).2 = wtr := by rw [hw]
      have := waitForServer_events env.probes port 30 _ (by rw [hwtr]; exact hm)
      simp at this
  · rw [hr] at h
    simp at h
    subst h
    rw [he]
    constructor
    · intro hm
      simp [spawnEvent] at hm
      have hwtr : (waitForServer env.probes port 30).2 = wtr := by rw [hw]
      have := waitForServer_events env.probes port 30 _ (by rw [hwtr]; exact hm)
      simp at this
    · intro hm
      simp [spawnEvent] at hm
      have hwtr : (waitForServer env.probes port 30).2 = wtr := by rw [hw]
      have := waitForServer_events env.probes port 30 _ (by rw [hwtr]; exact hm)
      simp at this

/-- A start whose port resolution emitted no network events performs no
bind, on the reuse path and on the fresh path alike. -/
theorem startServer_no_alloc (env : StartEnv) (st : SupState) (d : String)
    (h : (resolvePort env.envPort env.bind).2 = []) :
    Event.netBound ∉ (startServer env st d).2.2
    ∧ Event.netListenError ∉ (startServer env st d).2.2 := by
  cases hs : st.server with
  | none =>
      rw [startServer, hs]
      exact startFresh_no_alloc env st d h
  | some s =>
      by_cases hk : s.process.killed = false
      · rw [startServer, hs]
        simp [hk]
      · rw [startServer, hs]
        simp only [hk, if_false]
        exact startFresh_no_alloc env st d h

/-- C9: the OPENCODE_PORT value is used as the subprocess port, skipping
allocation, precisely when it is set and coerces under the full Number
string grammar (decimal with fraction and exponent, hex, binary, octal,
Infinity) to a number that is neither NaN nor zero, and then start performs
no bind; in every other case (unset, empty, non-numeric, or zero) port
resolution silently falls back to OS allocation instead of failing. -/
theorem resolvePort_env_spec (ep : Option String) (b : BindOutcome) :
    (∀ s dv, ep = some s → jsToNumber s = JSNum.num dv → dv.isZero = false →
        envPortUsable ep = true ∧ resolvePort ep b = (Except.ok dv, []))
    ∧ (envPortUsable ep = false → resolvePort ep b = allocFallback b)
    ∧ (∀ env : StartEnv, ∀ st d, env.envPort = ep → env.bind = b →
        envPortUsable ep = true →
        Event.netBound ∉ (startServer env st d).2.2
        ∧ Event.netListenError ∉ (startServer env st d).2.2) := by
  refine ⟨?_, fun hu => resolvePort_unusable ep b hu, ?_⟩
  · intro s dv hep hj hz
    subst hep
    exact ⟨by simp [envPortUsable, hj, hz], resolvePort_usable s dv b hj hz⟩
  · intro env st d hep hb hu
    cases hep2 : ep with
    | none => rw [hep2] at hu; simp [envPortUsable] at hu
    | some s =>
        rw [hep2] at hu
        cases hj : jsToNumber s with
        | nan => simp [envPortUsable, hj] at hu
        | num dv =>
            have hz : dv.isZero = false := by
              simp [envPortUsable, hj] at hu
              exact hu
            have hres : resolvePort (some s) b = (Except.ok dv, []) :=
              resolvePort_usable s dv b hj hz
            refine startServer_no_alloc env st d ?_
            rw [hep, hb, hep2, hres]

/-- C9 witness: a set OPENCODE_PORT in decimal, exponent, hex or Infinity
form is used even when the OS would refuse a bind, because no allocation is
attempted. -/
theorem resolvePort_env_spec_witness :
    resolvePort (some "8080") BindOutcome.listenRefused =
      (Except.ok (JSNumber.finite { mantissa := 8080, exp10 := 0 }), [])
    ∧ resolvePort (some "1e3") BindOutcome.listenRefused =
      (Except.ok (JSNumber.finite { mantissa := 1000, exp10 := 0 }), [])
    ∧ resolvePort (some "0x10") BindOutcome.listenRefused =
      (Except.ok (JSNumber.finite { mantissa := 16, exp10 := 0 }), [])
    ∧ resolvePort (some "Infinity") BindOutcome.listenRefused =
      (Except.ok JSNumber.posInf, []) :=
  ⟨((resolvePort_env_spec (some "8080") BindOutcome.listenRefused).1 "8080"
      (JSNumber.finite { mantissa := 8080, exp10 := 0 }) rfl (by decide) (by decide)).2,
    ((resolvePort_env_spec (some "1e3") BindOutcome.listenRefused).1 "1e3"
      (JSNumber.finite { mantissa := 1000, exp10 := 0 }) rfl (by decide) (by decide)).2,
    ((resolvePort_env_spec (some "0x10") BindOutcome.listenRefused).1 "0x10"
      (JSNumber.finite { mantissa := 16, exp10 := 0 }) rfl (by decide) (by decide)).2,
    ((resolvePort_env_spec (some "Infinity") BindOutcome.listenRefused).1 "Infinity"
      JSNumber.posInf rfl (by decide) (by decide)).2⟩

/-- C10: the reuse check precedes directory validation: with a live instance
present, start succeeds and returns it for every directory, accessible or
not, and a DirectoryError can only be raised when no live instance exists. -/
theorem reuse_precedes_directory_check :
    (∀ (env : StartEnv) (st : SupState) (s : OpenCodeServer) (d : String),
        st.server = some s → s.process.killed = false → env.dirOk d = false →
        (startServer env st d).1 = Except.ok s)
    ∧ (∀ (env : StartEnv) (st : SupState) (d dir : String),
        (startServer env st d).1 = Except.error (SupError.directoryError dir) →
        live st = false) := by
  constructor
  · intro env st s d hs hk _
    simp [startServer, hs, hk]
  · intro env st d dir h
    cases hs : st.server with
    | none => simp [live, hs]
    | some s =>
        by_cases hk : s.process.killed = false
        · rw [startServer, hs] at h
          simp [hk] at h
        · have hkt : s.process.killed = true := by
            revert hk; cases s.process.killed <;> simp
          simp [live, hs, hkt]

/-- C10 witness: with a live instance, start on an inaccessible directory
returns the instance instead of raising DirectoryError. -/
theorem reuse_precedes_directory_check_witness :
    (startServer wEnvBadDir wStLive "/nope").1 = Except.ok wInst :=
  reuse_precedes_directory_check.1 wEnvBadDir wStLive wInst "/nope" rfl rfl rfl
